import Mathlib

/-!
Verification of the logging utilities of vietviet08/supermarket-sales-dw
(`src/utils/logging.py`) against its natural-language specification.

The module is shallowly embedded: Python's process-wide logging facility is
modelled only to the depth the repository touches it (numeric levels, the
uppercase attributes of the `logging` module, handler installation, logger
names and effective levels), the filesystem is modelled as explicit sets of
directories and files threaded through `setup_logging`, and a wrapped
function's behaviour is modelled as a pure function into `PyOutcome`
(normal return, raising an `Exception` carrying its `str`, or raising a
non-`Exception` `BaseException`).
-/

/-- A log line as emitted by a handler: the emitting logger's name, the
numeric level of the record, and the formatted message text. -/
structure LogRecord where
  loggerName : String
  level : Nat
  msg : String
deriving DecidableEq, Repr

/-- Numeric value of `logging.INFO` in Python's logging module. -/
def infoLevel : Nat := 20

/-- Numeric value of `logging.ERROR` in Python's logging module. -/
def errorLevel : Nat := 40

/-- Embeds `get_logger` from `src/utils/logging.py`: a logger handle is
identified by its name, and `get_logger(name)` returns
`logging.getLogger(f"supermarket_sales.{name}")`. -/
def get_logger (name : String) : String := "supermarket_sales." ++ name

/-- Outcome of calling a Python function: a normal return, an exception that
is an instance of `Exception` (carrying `str(e)`), or a raised throwable that
is a `BaseException` but not an `Exception` (e.g. `KeyboardInterrupt`). -/
inductive PyOutcome (β : Type) where
  | ok (v : β)
  | exc (msg : String)
  | baseExc (desc : String)
deriving DecidableEq, Repr

/-- Embeds the `wrapper` closure produced by `log_function_call` in
`src/utils/logging.py`, applied to one argument.  `funcName` is
`func.__name__`, `funcModule` is `func.__module__`.  The wrapper logs an
info "Calling function" line, calls `func`; on normal return it logs an
info "completed successfully" line and returns the result; on an
`Exception` it logs an error line with `str(e)` and re-raises; the
`except Exception` clause does not catch other `BaseException`s, so those
propagate after only the first line was logged.  The returned list is the
sequence of records emitted, in emission order. -/
def log_function_call {α β : Type} (funcName funcModule : String)
    (f : α → PyOutcome β) (a : α) : List LogRecord × PyOutcome β :=
  let logger := get_logger funcModule
  let calling : LogRecord := ⟨logger, infoLevel, "Calling function: " ++ funcName⟩
  match f a with
  | .ok result =>
      ([calling, ⟨logger, infoLevel, "Function " ++ funcName ++ " completed successfully"⟩],
       .ok result)
  | .exc e =>
      ([calling, ⟨logger, errorLevel, "Function " ++ funcName ++ " failed: " ++ e⟩],
       .exc e)
  | .baseExc d => ([calling], .baseExc d)

/-- A filesystem state: the sets of existing directories and existing
files, each identified by its path as a list of components. -/
structure FS where
  dirs : List (List String)
  files : List (List String)
deriving DecidableEq, Repr

/-- An empty filesystem, used as a concrete starting state. -/
def emptyFS : FS := ⟨[], []⟩

/-- All nonempty component-prefixes of a path, shortest first; these are the
directories `Path.mkdir(parents=True, exist_ok=True)` ensures exist. -/
def pathAncestors (p : List String) : List (List String) :=
  (List.range p.length).map fun k => p.take (k + 1)

/-- Embeds `Path(p).mkdir(parents=True, exist_ok=True)`: the directory and
all its ancestors exist afterwards. -/
def FS.mkdirParents (fs : FS) (p : List String) : FS :=
  { fs with dirs := pathAncestors p ++ fs.dirs }

/-- Embeds opening a file in append mode (as `logging.FileHandler` does at
construction): the file exists afterwards. -/
def FS.createFile (fs : FS) (p : List String) : FS :=
  { fs with files := p :: fs.files }

/-- Splits a character list at every occurrence of a separator character. -/
def splitOnChar (sep : Char) : List Char → List (List Char)
  | [] => [[]]
  | c :: rest =>
      let r := splitOnChar sep rest
      if c = sep then [] :: r
      else
        match r with
        | [] => [[c]]
        | g :: gs => (c :: g) :: gs

/-- Parses a path string into its components, as `pathlib.Path` does for the
relative slash-separated paths this module builds. -/
def parsePath (s : String) : List String :=
  ((splitOnChar '/' s.data).map String.mk).filter (fun c => c ≠ "")

/-- The component-path of a `pathlib.Path`'s `.parent`. -/
def parentPath (p : List String) : List String := p.dropLast

/-- Renders a component path back to a string, as `str(path)` does. -/
def pathToString (p : List String) : String := String.intercalate "/" p

/-- The directory `Path(__file__).parent.parent.parent` of
`src/utils/logging.py`: three levels up from the module file, i.e. the
project root. -/
def projectRoot : List String := ["project_root"]

/-- Embeds Python's `str.upper()` for the ASCII strings this module handles:
uppercases every character. -/
def pyUpper (s : String) : String := String.mk (s.data.map Char.toUpper)

/-- The value of a module attribute looked up by `getattr`: the `logging`
module's attributes fixed under upper-casing are numeric levels, the string
`BASIC_FORMAT`, or (for `_STYLES`) a value that is neither an int nor a
str — modelled opaquely, since `_checkLevel` only inspects its type. -/
inductive PyAttr where
  | level (n : Nat)
  | strAttr (s : String)
  | dictAttr
deriving DecidableEq, Repr

/-- Embeds `getattr(logging, name)` for every `name` in the image of
`str.upper`: the attributes of CPython's `logging` module whose names are
fixed under upper-casing (contain no lowercase letter) are exactly the
level constants `CRITICAL`, `FATAL`, `ERROR`, `WARNING`, `WARN`, `INFO`,
`DEBUG`, `NOTSET`, the string `BASIC_FORMAT`, and the style dict `_STYLES`;
`getattr` on any other such name raises `AttributeError`. -/
def loggingGetattr (name : String) : Option PyAttr :=
  if name = "CRITICAL" then some (PyAttr.level 50)
  else if name = "FATAL" then some (PyAttr.level 50)
  else if name = "ERROR" then some (PyAttr.level 40)
  else if name = "WARNING" then some (PyAttr.level 30)
  else if name = "WARN" then some (PyAttr.level 30)
  else if name = "INFO" then some (PyAttr.level 20)
  else if name = "DEBUG" then some (PyAttr.level 10)
  else if name = "NOTSET" then some (PyAttr.level 0)
  else if name = "BASIC_FORMAT" then some (PyAttr.strAttr "%(levelname)s:%(name)s:%(message)s")
  else if name = "_STYLES" then some PyAttr.dictAttr
  else none

/-- Embeds the `logging._nameToLevel` table consulted when a *string* is
passed as a level to `Logger.setLevel` (via `basicConfig`). -/
def pyLevelNames : List (String × Nat) :=
  [("CRITICAL", 50), ("FATAL", 50), ("ERROR", 40), ("WARN", 30),
   ("WARNING", 30), ("INFO", 20), ("DEBUG", 10), ("NOTSET", 0)]

/-- The numeric level a level-name string denotes in the standard table
(0 when the name is unknown). -/
def pyLevelValue (s : String) : Nat := (pyLevelNames.lookup s).getD 0

/-- A handler installed by `basicConfig`: console stream, file sink at a
path, or the no-op `NullHandler`. -/
inductive Handler where
  | streamHandler
  | fileHandler (path : String)
  | nullHandler
deriving DecidableEq, Repr

/-- An error propagating out of `setup_logging`: the `AttributeError` from
`getattr` on an unknown level name, the `ValueError` from `setLevel` on a
string that is not a level name, or the `TypeError` from `setLevel` on a
level value that is neither an int nor a str. -/
inductive PyError where
  | attributeError (name : String)
  | valueError
  | typeError
deriving DecidableEq, Repr

/-- The default format string of `setup_logging`. -/
def defaultLogFormat : String := "%(asctime)s - %(name)s - %(levelname)s - %(message)s"

/-- The default log-file string built by `setup_logging` when `log_file` is
`None`: `str(<project-root>/logs/supermarket_sales.log)`. -/
def defaultLogFileString : String :=
  pathToString (projectRoot ++ ["logs"] ++ ["supermarket_sales.log"])

/-- The component path of the default log file. -/
def defaultLogPath : List String := projectRoot ++ ["logs", "supermarket_sales.log"]

/-- Resolution of the `log_format` argument: `None` means the default. -/
def resolveFormat (log_format : Option String) : String :=
  match log_format with
  | none => defaultLogFormat
  | some f => f

/-- The process-wide logging configuration established by a successful
`setup_logging` call, together with the returned logger.  `rootLevel` is the
level `basicConfig` set on the root logger; `namedLevels` records every
named logger whose own level was explicitly set (the repository never sets
one, so it is empty); `loggerName` is the name of the returned
`logging.getLogger("supermarket_sales")` handle. -/
structure SetupResult where
  logFormat : String
  rootLevel : Nat
  handlers : List Handler
  loggerName : String
  namedLevels : List (String × Nat)
deriving DecidableEq, Repr

/-- Embeds `setup_logging` from `src/utils/logging.py` as a function of the
filesystem state, returning the updated filesystem and either the raised
error or the established configuration.  Steps, in source order: default the
format; if `log_file is None`, create `<project-root>/logs` (with parents)
and point `log_file` at the default file; if `log_file` is truthy (a
non-empty string), create its parent directories; call `basicConfig`, whose
`level` argument `getattr(logging, log_level.upper())` is evaluated first
(raising `AttributeError` for unknown names) and whose `handlers` argument
constructs a `StreamHandler` plus either a `FileHandler` (which opens, hence
creates, the file) when `log_file` is truthy or a `NullHandler` otherwise;
`basicConfig` then sets the root level via `_checkLevel` (raising
`ValueError` if the level value is a string that is not a level name, and
`TypeError` if it is neither an int nor a str); finally return
`logging.getLogger("supermarket_sales")`. -/
def setup_logging (log_level : String) (log_file : Option String)
    (log_format : Option String) (fs : FS) : FS × Except PyError SetupResult :=
  let fmt := resolveFormat log_format
  let step2 : FS × String :=
    match log_file with
    | none =>
        let logsDir := projectRoot ++ ["logs"]
        (fs.mkdirParents logsDir, pathToString (logsDir ++ ["supermarket_sales.log"]))
    | some f => (fs, f)
  let fs2 := step2.1
  let lf := step2.2
  let fs3 := if lf ≠ "" then fs2.mkdirParents (parentPath (parsePath lf)) else fs2
  match loggingGetattr (pyUpper log_level) with
  | none => (fs3, Except.error (PyError.attributeError (pyUpper log_level)))
  | some attr =>
      let step4 : FS × List Handler :=
        if lf ≠ "" then
          (fs3.createFile (parsePath lf), [Handler.streamHandler, Handler.fileHandler lf])
        else
          (fs3, [Handler.streamHandler, Handler.nullHandler])
      match attr with
      | PyAttr.level v =>
          (step4.1, Except.ok ⟨fmt, v, step4.2, "supermarket_sales", []⟩)
      | PyAttr.strAttr s =>
          match pyLevelNames.lookup s with
          | some v => (step4.1, Except.ok ⟨fmt, v, step4.2, "supermarket_sales", []⟩)
          | none => (step4.1, Except.error PyError.valueError)
      | PyAttr.dictAttr => (step4.1, Except.error PyError.typeError)

/-- The chain of logger names consulted by `Logger.getEffectiveLevel`: the
logger itself, then each dotted ancestor, longest first (the root logger is
handled separately). -/
def loggerChain (name : String) : List String :=
  let parts := (splitOnChar '.' name.data).map String.mk
  ((List.range parts.length).map fun k => String.intercalate "." (parts.take (k + 1))).reverse

/-- Walks a logger-name chain looking for the first logger whose own level
is set (nonzero, i.e. not `NOTSET`); falls back to the root level. -/
def effFromChain (named : List (String × Nat)) (rootLevel : Nat) : List String → Nat
  | [] => rootLevel
  | n :: rest =>
      let l := (named.lookup n).getD 0
      if l ≠ 0 then l else effFromChain named rootLevel rest

/-- Embeds `Logger.getEffectiveLevel` for a named logger under the
configuration a `setup_logging` call established. -/
def SetupResult.effectiveLevel (r : SetupResult) (name : String) : Nat :=
  effFromChain r.namedLevels r.rootLevel (loggerChain name)

/-- Reads the characters of a `%(name)s`-style placeholder up to its closing
parenthesis, returning the name and the remaining characters. -/
def placeholderName : List Char → List Char × List Char
  | [] => ([], [])
  | c :: rest =>
      if c = ')' then ([], rest)
      else
        let p := placeholderName rest
        (c :: p.1, p.2)

/-- Fuel-bounded scan of a character list for `%(`-placeholders, in order of
occurrence. -/
def placeholderScan : Nat → List Char → List String
  | 0, _ => []
  | _ + 1, [] => []
  | fuel + 1, '%' :: '(' :: rest =>
      let p := placeholderName rest
      String.mk p.1 :: placeholderScan fuel p.2
  | fuel + 1, _ :: rest => placeholderScan fuel rest

/-- The placeholder names of a `%`-style format string, in the order they
appear. -/
def formatFields (s : String) : List String :=
  placeholderScan s.data.length s.data

/-- The own-level chain of the logger `"supermarket_sales"` is just the
logger itself; with no named levels set its effective level is the root
level. -/
lemma effFromChain_sms (v : Nat) :
    effFromChain [] v (loggerChain "supermarket_sales") = v := by
  have hc : loggerChain "supermarket_sales" = ["supermarket_sales"] := by decide
  rw [hc]; rfl

/-- The default log-file string is truthy (non-empty). -/
lemma default_lf_ne_empty :
    pathToString (projectRoot ++ ["logs", "supermarket_sales.log"]) ≠ "" := by decide

/-- If `getattr` fails on the uppercased level name, `setup_logging`
propagates the `AttributeError`, whatever the other arguments are. -/
lemma setup_logging_getattr_none (lvl : String) (file fmt : Option String) (fs : FS)
    (h : loggingGetattr (pyUpper lvl) = none) :
    (setup_logging lvl file fmt fs).2 = Except.error (PyError.attributeError (pyUpper lvl)) := by
  cases file with
  | none => simp [setup_logging, h]
  | some f => by_cases hf : f = "" <;> simp [setup_logging, h, hf]

/-- If `getattr` yields the numeric level `v`, `setup_logging` succeeds with
root level `v`, the resolved format, and logger `"supermarket_sales"`. -/
lemma setup_logging_level_ok (lvl : String) (file fmt : Option String) (fs : FS) (v : Nat)
    (h : loggingGetattr (pyUpper lvl) = some (PyAttr.level v)) :
    ∃ hs, (setup_logging lvl file fmt fs).2 =
      Except.ok ⟨resolveFormat fmt, v, hs, "supermarket_sales", []⟩ := by
  cases file with
  | none =>
      exact ⟨[Handler.streamHandler,
        Handler.fileHandler (pathToString (projectRoot ++ ["logs", "supermarket_sales.log"]))],
        by simp [setup_logging, h, default_lf_ne_empty]⟩
  | some f =>
      by_cases hf : f = ""
      · subst hf
        exact ⟨[Handler.streamHandler, Handler.nullHandler], by simp [setup_logging, h]⟩
      · exact ⟨[Handler.streamHandler, Handler.fileHandler f], by simp [setup_logging, h, hf]⟩

/-- If `getattr` yields a string that is a level name, `setLevel` accepts it
and `setup_logging` succeeds with the table's numeric level. -/
lemma setup_logging_strAttr_ok (lvl : String) (file fmt : Option String) (fs : FS)
    (s : String) (v : Nat)
    (hA : loggingGetattr (pyUpper lvl) = some (PyAttr.strAttr s))
    (hL : pyLevelNames.lookup s = some v) :
    ∃ hs, (setup_logging lvl file fmt fs).2 =
      Except.ok ⟨resolveFormat fmt, v, hs, "supermarket_sales", []⟩ := by
  cases file with
  | none =>
      exact ⟨[Handler.streamHandler,
        Handler.fileHandler (pathToString (projectRoot ++ ["logs", "supermarket_sales.log"]))],
        by simp [setup_logging, hA, hL, default_lf_ne_empty]⟩
  | some f =>
      by_cases hf : f = ""
      · subst hf
        exact ⟨[Handler.streamHandler, Handler.nullHandler], by simp [setup_logging, hA, hL]⟩
      · exact ⟨[Handler.streamHandler, Handler.fileHandler f],
          by simp [setup_logging, hA, hL, hf]⟩

/-- If `getattr` yields a string that is not a level name, `setLevel` raises
`ValueError`. -/
lemma setup_logging_strAttr_err (lvl : String) (file fmt : Option String) (fs : FS) (s : String)
    (hA : loggingGetattr (pyUpper lvl) = some (PyAttr.strAttr s))
    (hL : pyLevelNames.lookup s = none) :
    (setup_logging lvl file fmt fs).2 = Except.error PyError.valueError := by
  cases file with
  | none => simp [setup_logging, hA, hL]
  | some f => by_cases hf : f = "" <;> simp [setup_logging, hA, hL, hf]

/-- If `getattr` yields a value that is neither an int nor a str (the
`_STYLES` dict), `setLevel` raises `TypeError`. -/
lemma setup_logging_dictAttr_err (lvl : String) (file fmt : Option String) (fs : FS)
    (hA : loggingGetattr (pyUpper lvl) = some PyAttr.dictAttr) :
    (setup_logging lvl file fmt fs).2 = Except.error PyError.typeError := by
  cases file with
  | none => simp [setup_logging, hA]
  | some f => by_cases hf : f = "" <;> simp [setup_logging, hA, hf]

/-- At the level name `"_styles"`, whose uppercase form is the `logging`
module attribute `_STYLES`, the program raises `TypeError` from the level
check, not an attribute-lookup error. -/
lemma setup_logging_styles_type_error :
    (setup_logging "_styles" none none emptyFS).2 = Except.error PyError.typeError := rfl

/-- Every successful `setup_logging` call uses the resolved format, returns
the logger `"supermarket_sales"`, and sets no named logger's level. -/
lemma setup_logging_ok_inv (lvl : String) (file fmt : Option String) (fs : FS) (r : SetupResult)
    (h : (setup_logging lvl file fmt fs).2 = Except.ok r) :
    r.logFormat = resolveFormat fmt ∧ r.loggerName = "supermarket_sales" ∧
    r.namedLevels = [] := by
  rcases hA : loggingGetattr (pyUpper lvl) with _ | attr
  · rw [setup_logging_getattr_none lvl file fmt fs hA] at h; cases h
  · cases attr with
    | level v =>
        obtain ⟨hs, hok⟩ := setup_logging_level_ok lvl file fmt fs v hA
        rw [hok] at h
        cases h
        exact ⟨rfl, rfl, rfl⟩
    | strAttr s =>
        rcases hL : pyLevelNames.lookup s with _ | v
        · rw [setup_logging_strAttr_err lvl file fmt fs s hA hL] at h; cases h
        · obtain ⟨hs, hok⟩ := setup_logging_strAttr_ok lvl file fmt fs s v hA hL
          rw [hok] at h
          cases h
          exact ⟨rfl, rfl, rfl⟩
    | dictAttr => rw [setup_logging_dictAttr_err lvl file fmt fs hA] at h; cases h

/-- Parsing the default log-file string recovers the default component
path. -/
lemma parsePath_default :
    parsePath (pathToString (projectRoot ++ ["logs", "supermarket_sales.log"])) = defaultLogPath := by
  decide

/-- A created file exists. -/
lemma mem_files_createFile (fs : FS) (p : List String) : p ∈ (fs.createFile p).files :=
  List.mem_cons_self _ _

/-- `mkdirParents` makes every ancestor of its argument exist. -/
lemma mem_dirs_mkdirParents (fs : FS) (p q : List String) (h : q ∈ pathAncestors p) :
    q ∈ (fs.mkdirParents p).dirs := List.mem_append.mpr (Or.inl h)

/-- `mkdirParents` preserves existing directories. -/
lemma mem_dirs_mkdirParents_of_mem (fs : FS) (p q : List String) (h : q ∈ fs.dirs) :
    q ∈ (fs.mkdirParents p).dirs := List.mem_append.mpr (Or.inr h)

/-- Shape of a successful `setup_logging` call with `log_file = None`: the
logs directory is created twice (once for the default, once for the parent
of the resolved path), the default file is created by the `FileHandler`,
and the handlers are the console stream plus the file sink at the default
path. -/
lemma setup_logging_none_ok_inv (lvl : String) (fmt : Option String) (fs : FS) (r : SetupResult)
    (h : (setup_logging lvl none fmt fs).2 = Except.ok r) :
    (setup_logging lvl none fmt fs).1 =
      ((fs.mkdirParents (projectRoot ++ ["logs"])).mkdirParents
        (parentPath defaultLogPath)).createFile defaultLogPath ∧
    r.handlers = [Handler.streamHandler, Handler.fileHandler defaultLogFileString] := by
  rcases hA : loggingGetattr (pyUpper lvl) with _ | attr
  · simp [setup_logging, hA] at h
  · cases attr with
    | level v =>
        simp [setup_logging, hA, default_lf_ne_empty, parsePath_default] at h ⊢
        rw [← h]
        simp [defaultLogFileString]
    | strAttr s =>
        rcases hL : pyLevelNames.lookup s with _ | w
        · simp [setup_logging, hA, hL, default_lf_ne_empty] at h
        · simp [setup_logging, hA, hL, default_lf_ne_empty, parsePath_default] at h ⊢
          rw [← h]
          simp [defaultLogFileString]
    | dictAttr => rw [setup_logging_dictAttr_err lvl none fmt fs hA] at h; cases h

/-- Shape of a successful `setup_logging` call with a truthy (non-empty)
`log_file` string: the handlers are the console stream plus a file sink at
the given path. -/
lemma setup_logging_some_ok_handlers (lvl f : String) (fmt : Option String) (fs : FS)
    (r : SetupResult) (hf : f ≠ "")
    (h : (setup_logging lvl (some f) fmt fs).2 = Except.ok r) :
    r.handlers = [Handler.streamHandler, Handler.fileHandler f] := by
  rcases hA : loggingGetattr (pyUpper lvl) with _ | attr
  · simp [setup_logging, hA] at h
  · cases attr with
    | level v =>
        simp [setup_logging, hA, hf] at h
        rw [← h]
    | strAttr s =>
        rcases hL : pyLevelNames.lookup s with _ | w
        · simp [setup_logging, hA, hL, hf] at h
        · simp [setup_logging, hA, hL, hf] at h
          rw [← h]
    | dictAttr => rw [setup_logging_dictAttr_err lvl (some f) fmt fs hA] at h; cases h

/-- C1: if the wrapped function raises an `Exception` with message `m`, the
wrapper emits exactly one info-level record and exactly one error-level
record, the error record's text ends with (hence contains) `m`, and the same
exception propagates to the caller unchanged. -/
theorem wrapper_exception_logged_and_reraised {α β : Type}
    (fn md : String) (f : α → PyOutcome β) (a : α) (m : String)
    (h : f a = PyOutcome.exc m) :
    ((log_function_call fn md f a).1.filter (fun r => r.level = infoLevel)).length = 1 ∧
    ((log_function_call fn md f a).1.filter (fun r => r.level = errorLevel)).length = 1 ∧
    (log_function_call fn md f a).1 =
      [⟨get_logger md, infoLevel, "Calling function: " ++ fn⟩,
       ⟨get_logger md, errorLevel, "Function " ++ fn ++ " failed: " ++ m⟩] ∧
    (log_function_call fn md f a).2 = PyOutcome.exc m := by
  simp [log_function_call, h, infoLevel, errorLevel]

/-- Witness for C1 at a concrete wrapped function that raises. -/
theorem wrapper_exception_logged_and_reraised_witness :
    ((log_function_call "load" "etl" (fun _ : Unit => PyOutcome.exc (β := Nat) "boom") ()).1.filter
        (fun r => r.level = infoLevel)).length = 1 ∧
    ((log_function_call "load" "etl" (fun _ : Unit => PyOutcome.exc (β := Nat) "boom") ()).1.filter
        (fun r => r.level = errorLevel)).length = 1 ∧
    (log_function_call "load" "etl" (fun _ : Unit => PyOutcome.exc (β := Nat) "boom") ()).1 =
      [⟨get_logger "etl", infoLevel, "Calling function: " ++ "load"⟩,
       ⟨get_logger "etl", errorLevel, "Function " ++ "load" ++ " failed: " ++ "boom"⟩] ∧
    (log_function_call "load" "etl" (fun _ : Unit => PyOutcome.exc (β := Nat) "boom") ()).2 =
      PyOutcome.exc "boom" :=
  wrapper_exception_logged_and_reraised "load" "etl"
    (fun _ : Unit => PyOutcome.exc (β := Nat) "boom") () "boom" rfl

/-- C2: if the wrapped function returns `v`, the wrapper returns exactly `v`
and emits exactly two info-level records: the "Calling function" line before
the call and the "completed successfully" line after it. -/
theorem wrapper_success_returns_value {α β : Type}
    (fn md : String) (f : α → PyOutcome β) (a : α) (v : β)
    (h : f a = PyOutcome.ok v) :
    (log_function_call fn md f a).2 = PyOutcome.ok v ∧
    (log_function_call fn md f a).1 =
      [⟨get_logger md, infoLevel, "Calling function: " ++ fn⟩,
       ⟨get_logger md, infoLevel, "Function " ++ fn ++ " completed successfully"⟩] ∧
    ((log_function_call fn md f a).1.filter (fun r => r.level = infoLevel)).length = 2 := by
  simp [log_function_call, h, infoLevel]

/-- Witness for C2 at a concrete wrapped function that returns 7. -/
theorem wrapper_success_returns_value_witness :
    (log_function_call "extract" "etl" (fun _ : Unit => PyOutcome.ok 7) ()).2 = PyOutcome.ok 7 ∧
    (log_function_call "extract" "etl" (fun _ : Unit => PyOutcome.ok 7) ()).1 =
      [⟨get_logger "etl", infoLevel, "Calling function: " ++ "extract"⟩,
       ⟨get_logger "etl", infoLevel, "Function " ++ "extract" ++ " completed successfully"⟩] ∧
    ((log_function_call "extract" "etl" (fun _ : Unit => PyOutcome.ok 7) ()).1.filter
        (fun r => r.level = infoLevel)).length = 2 :=
  wrapper_success_returns_value "extract" "etl" (fun _ : Unit => PyOutcome.ok 7) () 7 rfl

/-- C3 (counterexample): `"warn"` uppercases to a name outside
DEBUG/INFO/WARNING/ERROR/CRITICAL, yet `setup_logging "warn"` does not raise
an attribute-lookup error: `getattr` finds `logging.WARN` and the call
succeeds with root level 30. -/
theorem setup_logging_warn_succeeds :
    pyUpper "warn" ∉ ["DEBUG", "INFO", "WARNING", "ERROR", "CRITICAL"] ∧
    (setup_logging "warn" none none emptyFS).2 =
      Except.ok ⟨defaultLogFormat, 30,
        [Handler.streamHandler, Handler.fileHandler defaultLogFileString],
        "supermarket_sales", []⟩ :=
  ⟨by decide, rfl⟩

/-- C3 (amended): for every level-name string whose uppercased form is not
an attribute of the `logging` module — the attributes fixed under
upper-casing being DEBUG, INFO, WARNING, WARN, ERROR, FATAL, CRITICAL,
NOTSET, BASIC_FORMAT and the style dict `_STYLES` — `setup_logging` raises
the attribute-lookup error from the level resolution, uncaught and
untranslated.  (At `"_styles"` the lookup succeeds and the failure is
instead a `TypeError` from the level check, see
`setup_logging_styles_type_error`.) -/
theorem setup_logging_unknown_level_raises (lvl : String) (file fmt : Option String) (fs : FS)
    (h : loggingGetattr (pyUpper lvl) = none) :
    (setup_logging lvl file fmt fs).2 = Except.error (PyError.attributeError (pyUpper lvl)) :=
  setup_logging_getattr_none lvl file fmt fs h

/-- Witness for the amended C3 at the unknown level name `"verbose"`. -/
theorem setup_logging_unknown_level_raises_witness :
    (setup_logging "verbose" none none emptyFS).2 =
      Except.error (PyError.attributeError (pyUpper "verbose")) :=
  setup_logging_unknown_level_raises "verbose" none none emptyFS rfl

/-- C4: for every level name that uppercases to one of
DEBUG/INFO/WARNING/ERROR/CRITICAL, `setup_logging` succeeds and the returned
logger's effective level equals the named level's numeric value. -/
theorem setup_logging_valid_level_effective (lvl : String) (file fmt : Option String) (fs : FS)
    (h : pyUpper lvl ∈ ["DEBUG", "INFO", "WARNING", "ERROR", "CRITICAL"]) :
    ∃ r, (setup_logging lvl file fmt fs).2 = Except.ok r ∧
      r.effectiveLevel "supermarket_sales" = pyLevelValue (pyUpper lvl) := by
  have h5 : pyUpper lvl = "DEBUG" ∨ pyUpper lvl = "INFO" ∨ pyUpper lvl = "WARNING" ∨
      pyUpper lvl = "ERROR" ∨ pyUpper lvl = "CRITICAL" := by simpa using h
  rcases h5 with h' | h' | h' | h' | h'
  · obtain ⟨hs, hok⟩ := setup_logging_level_ok lvl file fmt fs 10 (by rw [h']; decide)
    exact ⟨_, hok, by rw [h']; simp only [SetupResult.effectiveLevel, effFromChain_sms]; decide⟩
  · obtain ⟨hs, hok⟩ := setup_logging_level_ok lvl file fmt fs 20 (by rw [h']; decide)
    exact ⟨_, hok, by rw [h']; simp only [SetupResult.effectiveLevel, effFromChain_sms]; decide⟩
  · obtain ⟨hs, hok⟩ := setup_logging_level_ok lvl file fmt fs 30 (by rw [h']; decide)
    exact ⟨_, hok, by rw [h']; simp only [SetupResult.effectiveLevel, effFromChain_sms]; decide⟩
  · obtain ⟨hs, hok⟩ := setup_logging_level_ok lvl file fmt fs 40 (by rw [h']; decide)
    exact ⟨_, hok, by rw [h']; simp only [SetupResult.effectiveLevel, effFromChain_sms]; decide⟩
  · obtain ⟨hs, hok⟩ := setup_logging_level_ok lvl file fmt fs 50 (by rw [h']; decide)
    exact ⟨_, hok, by rw [h']; simp only [SetupResult.effectiveLevel, effFromChain_sms]; decide⟩

/-- Witness for C4 at the lowercase level name `"info"`. -/
theorem setup_logging_valid_level_effective_witness :
    ∃ r, (setup_logging "info" none none emptyFS).2 = Except.ok r ∧
      r.effectiveLevel "supermarket_sales" = pyLevelValue (pyUpper "info") :=
  setup_logging_valid_level_effective "info" none none emptyFS (by decide)

/-- C5: `get_logger n` returns the logger named exactly
`"supermarket_sales." ++ n`; in particular the characters of
`"supermarket_sales."` form a prefix of the returned name. -/
theorem get_logger_name_prefixed (n : String) :
    get_logger n = "supermarket_sales." ++ n ∧
    "supermarket_sales.".data <+: (get_logger n).data :=
  ⟨rfl, ⟨n.data, rfl⟩⟩

/-- C6: when `setup_logging` is called with `log_file = None` and returns,
the default log file `<project-root>/logs/supermarket_sales.log` exists, the
project root and its `logs` directory exist, and a file sink at the default
path is among the installed handlers. -/
theorem setup_logging_default_file_created (lvl : String) (fmt : Option String) (fs : FS)
    (r : SetupResult) (h : (setup_logging lvl none fmt fs).2 = Except.ok r) :
    defaultLogPath ∈ (setup_logging lvl none fmt fs).1.files ∧
    projectRoot ∈ (setup_logging lvl none fmt fs).1.dirs ∧
    projectRoot ++ ["logs"] ∈ (setup_logging lvl none fmt fs).1.dirs ∧
    Handler.fileHandler defaultLogFileString ∈ r.handlers := by
  obtain ⟨hfs, hh⟩ := setup_logging_none_ok_inv lvl fmt fs r h
  rw [hfs, hh]
  refine ⟨mem_files_createFile _ _, ?_, ?_, by simp⟩
  · exact mem_dirs_mkdirParents_of_mem _ _ _ (mem_dirs_mkdirParents _ _ _ (by decide))
  · exact mem_dirs_mkdirParents_of_mem _ _ _ (mem_dirs_mkdirParents _ _ _ (by decide))

/-- Witness for C6 at level `"INFO"` on the empty filesystem. -/
theorem setup_logging_default_file_created_witness :
    defaultLogPath ∈ (setup_logging "INFO" none none emptyFS).1.files ∧
    projectRoot ∈ (setup_logging "INFO" none none emptyFS).1.dirs ∧
    projectRoot ++ ["logs"] ∈ (setup_logging "INFO" none none emptyFS).1.dirs ∧
    Handler.fileHandler defaultLogFileString ∈
      SetupResult.handlers ⟨defaultLogFormat, 20,
        [Handler.streamHandler, Handler.fileHandler defaultLogFileString],
        "supermarket_sales", []⟩ :=
  setup_logging_default_file_created "INFO" none emptyFS
    ⟨defaultLogFormat, 20,
      [Handler.streamHandler, Handler.fileHandler defaultLogFileString],
      "supermarket_sales", []⟩ rfl

/-- C7: when `setup_logging` is called with `log_format = None` and returns,
the configured format is the default format string, whose placeholders are,
in order: timestamp (`asctime`), logger name (`name`), level (`levelname`),
message (`message`). -/
theorem setup_logging_default_format (lvl : String) (file : Option String) (fs : FS)
    (r : SetupResult) (h : (setup_logging lvl file none fs).2 = Except.ok r) :
    r.logFormat = defaultLogFormat ∧
    formatFields defaultLogFormat = ["asctime", "name", "levelname", "message"] :=
  ⟨(setup_logging_ok_inv lvl file none fs r h).1, by decide⟩

/-- Witness for C7 at level `"INFO"` with no file path. -/
theorem setup_logging_default_format_witness :
    SetupResult.logFormat ⟨defaultLogFormat, 20,
        [Handler.streamHandler, Handler.fileHandler defaultLogFileString],
        "supermarket_sales", []⟩ = defaultLogFormat ∧
    formatFields defaultLogFormat = ["asctime", "name", "levelname", "message"] :=
  setup_logging_default_format "INFO" none emptyFS
    ⟨defaultLogFormat, 20,
      [Handler.streamHandler, Handler.fileHandler defaultLogFileString],
      "supermarket_sales", []⟩ rfl

/-- C8: every call to `setup_logging` that returns yields the logger handle
named `"supermarket_sales"`, independent of which arguments were supplied. -/
theorem setup_logging_returns_named_logger (lvl : String) (file fmt : Option String) (fs : FS)
    (r : SetupResult) (h : (setup_logging lvl file fmt fs).2 = Except.ok r) :
    r.loggerName = "supermarket_sales" :=
  (setup_logging_ok_inv lvl file fmt fs r h).2.1

/-- Witness for C8 at level `"debug"` with a custom file path. -/
theorem setup_logging_returns_named_logger_witness :
    SetupResult.loggerName ⟨defaultLogFormat, 10,
        [Handler.streamHandler, Handler.fileHandler "out/app.log"],
        "supermarket_sales", []⟩ = "supermarket_sales" :=
  setup_logging_returns_named_logger "debug" (some "out/app.log") none emptyFS
    ⟨defaultLogFormat, 10,
      [Handler.streamHandler, Handler.fileHandler "out/app.log"],
      "supermarket_sales", []⟩ rfl

/-- C9 (counterexample): the no-op sink branch is reachable: calling
`setup_logging` with the non-null but falsy path `""` succeeds and installs
the console sink plus the `NullHandler`, not a file sink. -/
theorem setup_logging_empty_path_null_handler :
    (setup_logging "INFO" (some "") none emptyFS).2 =
      Except.ok ⟨defaultLogFormat, 20,
        [Handler.streamHandler, Handler.nullHandler],
        "supermarket_sales", []⟩ := rfl

/-- C9 (amended): whenever the supplied log-file argument is null or a
non-empty string, every successful `setup_logging` call installs exactly a
console sink plus a file sink; the no-op sink arises only for the non-null
empty-string path. -/
theorem setup_logging_truthy_path_handlers (lvl : String) (file fmt : Option String)
    (fs : FS) (r : SetupResult)
    (hfile : file = none ∨ ∃ s, file = some s ∧ s ≠ "")
    (h : (setup_logging lvl file fmt fs).2 = Except.ok r) :
    ∃ p, r.handlers = [Handler.streamHandler, Handler.fileHandler p] := by
  rcases hfile with rfl | ⟨s, rfl, hs⟩
  · exact ⟨defaultLogFileString, (setup_logging_none_ok_inv lvl fmt fs r h).2⟩
  · exact ⟨s, setup_logging_some_ok_handlers lvl s fmt fs r hs h⟩

/-- Witness for the amended C9 at a non-empty custom file path. -/
theorem setup_logging_truthy_path_handlers_witness :
    ∃ p, SetupResult.handlers ⟨defaultLogFormat, 20,
        [Handler.streamHandler, Handler.fileHandler "out/app.log"],
        "supermarket_sales", []⟩ = [Handler.streamHandler, Handler.fileHandler p] :=
  setup_logging_truthy_path_handlers "INFO" (some "out/app.log") none emptyFS
    ⟨defaultLogFormat, 20,
      [Handler.streamHandler, Handler.fileHandler "out/app.log"],
      "supermarket_sales", []⟩
    (Or.inr ⟨"out/app.log", rfl, by decide⟩) rfl

/-- C10: if the wrapped function raises a `BaseException` that is not an
`Exception`, the wrapper emits only the single "Calling function" info line,
no error-level line, and the throwable propagates. -/
theorem wrapper_base_exception_not_caught {α β : Type}
    (fn md : String) (f : α → PyOutcome β) (a : α) (d : String)
    (h : f a = PyOutcome.baseExc d) :
    (log_function_call fn md f a).1 =
      [⟨get_logger md, infoLevel, "Calling function: " ++ fn⟩] ∧
    ((log_function_call fn md f a).1.filter (fun r => r.level = errorLevel)).length = 0 ∧
    (log_function_call fn md f a).2 = PyOutcome.baseExc d := by
  simp [log_function_call, h, infoLevel, errorLevel]

/-- Witness for C10 at a concrete wrapped function raising a
`KeyboardInterrupt`-style throwable. -/
theorem wrapper_base_exception_not_caught_witness :
    (log_function_call "run" "etl" (fun _ : Unit => PyOutcome.baseExc (β := Nat) "KeyboardInterrupt") ()).1 =
      [⟨get_logger "etl", infoLevel, "Calling function: " ++ "run"⟩] ∧
    ((log_function_call "run" "etl" (fun _ : Unit => PyOutcome.baseExc (β := Nat) "KeyboardInterrupt") ()).1.filter
        (fun r => r.level = errorLevel)).length = 0 ∧
    (log_function_call "run" "etl" (fun _ : Unit => PyOutcome.baseExc (β := Nat) "KeyboardInterrupt") ()).2 =
      PyOutcome.baseExc "KeyboardInterrupt" :=
  wrapper_base_exception_not_caught "run" "etl"
    (fun _ : Unit => PyOutcome.baseExc (β := Nat) "KeyboardInterrupt") () "KeyboardInterrupt" rfl
